import Mathlib

/-!
Verification of the AS608 fingerprint-sensor packet protocol implemented in
`attendance.py` (class `AS608Serial` and its driver `AS608FingerprintScanner`).

The serial transport is modelled as a pure byte stream: a `List ℕ` of the
bytes available to be read (each element of a real stream is a byte, `< 256`).
`uart.read(n)` returns up to `n` bytes from the front of the stream, so a
method that performs `read(9)` followed by `read(k)` is embedded as
`s.take 9` and `(s.drop 9).take k`.

Python bit operations on non-negative integers are translated as
`x >> 8 ↦ x / 256`, `x & 0xFF ↦ x % 256`, and — for byte values `h, l < 256` —
`(h << 8) | l ↦ h * 256 + l` (the bit ranges are disjoint, so bitwise or is
addition).
-/

namespace Attendance

/-- Response code `AS608Serial.OK = 0x00`. -/
def OK : ℕ := 0x00

/-- Response code `AS608Serial.NOFINGER = 0x02`. -/
def NOFINGER : ℕ := 0x02

/-- Response code `AS608Serial.IMAGEFAIL = 0x03`. -/
def IMAGEFAIL : ℕ := 0x03

/-- `AS608Serial._send_packet(packet_type, data)`: the full wire packet written
to the uart.  The device address is the object field `self.address`
(initialised to `[0xFF, 0xFF, 0xFF, 0xFF]`); we pass its value as a parameter.

Python source:
`packet = [0xEF, 0x01] + self.address + [packet_type] +
  [(len(data) + 2) >> 8, (len(data) + 2) & 0xFF] + data`;
`checksum = sum(packet[6:])`; then the two bytes
`(checksum >> 8) & 0xFF` and `checksum & 0xFF` are appended. -/
def send_packet (address : List ℕ) (packet_type : ℕ) (data : List ℕ) : List ℕ :=
  let packet : List ℕ :=
    [0xEF, 0x01] ++ address ++ [packet_type] ++
      [(data.length + 2) / 256, (data.length + 2) % 256] ++ data
  let checksum : ℕ := (packet.drop 6).sum
  packet ++ [checksum / 256 % 256, checksum % 256]

/-- `AS608Serial._read_packet()` over the byte stream `s`: reads a 9-byte
header (`None` if fewer than 9 bytes arrive or the magic `0xEF 0x01` is
wrong), takes `packet_type = header[6]` and
`length = (header[7] << 8) | header[8]`, reads `length` further bytes
(`None` if fewer arrive), and returns `(packet_type, data[:-2])` —
the trailing two checksum bytes are stripped without being checked. -/
def read_packet (s : List ℕ) : Option (ℕ × List ℕ) :=
  let header := s.take 9
  if header.length < 9 then none
  else if header.getD 0 0 ≠ 0xEF ∨ header.getD 1 0 ≠ 0x01 then none
  else
    let packet_type := header.getD 6 0
    let length := header.getD 7 0 * 256 + header.getD 8 0
    let data := (s.drop 9).take length
    if data.length < length then none
    else some (packet_type, data.take (data.length - 2))

/-- `AS608Serial.get_image()` reply handling over the byte stream `s` (the
command write is side-effect-free in this model): on
`packet_type == 0x07 and data` returns `data[0]`, otherwise — including a
failed `_read_packet` — returns `IMAGEFAIL`. -/
def get_image (s : List ℕ) : ℕ :=
  match read_packet s with
  | some (pt, data) => if pt = 0x07 ∧ data ≠ [] then data.headD 0 else IMAGEFAIL
  | none => IMAGEFAIL

/-- `AS608Serial.download_image()` image buffer: the nested loops
`for y in range(288): for x in range(256): value = (x + y) % 256` appended
in order. -/
def download_image_buffer : List ℕ :=
  (List.range 288).flatMap fun y => (List.range 256).map fun x => (x + y) % 256

/-- `AS608Serial.download_image()`: exchanges no bytes with the sensor
(the method never touches `self.uart`); it fills `self.image_buffer` with
the fixed gradient and returns `OK`.  The unused stream parameter mirrors
the method's access to the object state. -/
def download_image (_uart : List ℕ) : ℕ × List ℕ :=
  (OK, download_image_buffer)

/-- System-parameter record returned by `AS608Serial.read_sysparam` (both the
`SysParam` and the `DefaultParam` inner classes produce this shape). -/
structure SysParam where
  status_reg : ℕ
  system_id : ℕ
  storage_capacity : ℕ
  security_level : ℕ
  device_address : ℕ
  packet_length : ℕ
  baud_rate : ℕ
deriving DecidableEq

/-- The `DefaultParam` values used by `read_sysparam` on every failure path
(and by `SysParam.__init__` when fewer than 17 data bytes arrived). -/
def defaultParam : SysParam :=
  ⟨0, 0, 200, 3, 0xFFFFFFFF, 128, 57600⟩

/-- The `SysParam.__init__` field parsing for `len(data) >= 17`
(fields are big-endian byte pairs, the device address four bytes);
otherwise the same default values as `DefaultParam`. -/
def parseSysParam (data : List ℕ) : SysParam :=
  if 17 ≤ data.length then
    ⟨data.getD 1 0 * 256 + data.getD 2 0,
     data.getD 3 0 * 256 + data.getD 4 0,
     data.getD 5 0 * 256 + data.getD 6 0,
     data.getD 7 0 * 256 + data.getD 8 0,
     data.getD 9 0 * 2 ^ 24 + data.getD 10 0 * 2 ^ 16 + data.getD 11 0 * 256 + data.getD 12 0,
     data.getD 13 0 * 256 + data.getD 14 0,
     data.getD 15 0 * 256 + data.getD 16 0⟩
  else defaultParam

/-- `AS608Serial.read_sysparam()` reply handling over the byte stream `s`:
on `packet_type == 0x07 and data and data[0] == OK` it builds `SysParam(data)`,
on every other outcome (failed read, wrong type, empty data, non-OK status,
exception) it returns the `DefaultParam` object. -/
def read_sysparam (s : List ℕ) : SysParam :=
  match read_packet s with
  | some (pt, data) =>
      if pt = 0x07 ∧ data ≠ [] ∧ data.headD 0 = OK then parseSysParam data
      else defaultParam
  | none => defaultParam

/-- `AS608FingerprintScanner.wait_for_finger()` is `while True:` polling
`self.finger.get_image()` and returning `True` on status `OK`, with a
`time.sleep(0.1)` between polls and no other exit.  `polls i` is the status
returned by the `i`-th `get_image` call; `fuel` bounds how many loop
iterations we observe (the loop itself is unbounded).  `none` means the
loop is still running after `fuel` iterations; the code has no path that
returns `False`. -/
def wait_for_finger (fuel : ℕ) (i : ℕ) (polls : ℕ → ℕ) : Option Bool :=
  match fuel with
  | 0 => none
  | Nat.succ n => if polls i = OK then some true else wait_for_finger n (i + 1) polls

/-- The behaviour of a `finger` object as observed by
`AS608FingerprintScanner.save_fingerprint_image`: the status returned by
`get_image()`, the status returned by `download_image()`, and the
`image_buffer` contents after the download. -/
structure Finger where
  get_image_result : ℕ
  download_image_result : ℕ
  image_buffer : List ℕ
deriving DecidableEq

/-- The test pattern built inline by `save_fingerprint_image` when
`finger.image_buffer` is empty: the same
`for y in range(height): for x in range(width): (x + y) % 256` loops
with `width, height = 256, 288`. -/
def test_pattern : List ℕ :=
  (List.range 288).flatMap fun y => (List.range 256).map fun x => (x + y) % 256

/-- `AS608FingerprintScanner.save_fingerprint_image` control flow: if
`get_image() != OK` it prints and returns `False` before calling
`download_image`; if `download_image() != OK` it returns `False`; otherwise
it saves the pixels (`image_buffer` when non-empty, else the test pattern).
First component: the pixel buffer written, `none` when nothing is saved.
Second component: whether `download_image` was invoked. -/
def save_fingerprint_image_logic (f : Finger) : Option (List ℕ) × Bool :=
  if f.get_image_result ≠ OK then (none, false)
  else if f.download_image_result ≠ OK then (none, true)
  else (some (if f.image_buffer ≠ [] then f.image_buffer else test_pattern), true)

/-- `save_fingerprint_image` with the serial backend `AS608Serial`: the
`get_image` status is decoded from the uart byte stream, and
`download_image` returns `OK` with the gradient buffer. -/
def save_fingerprint_image (uart : List ℕ) : Option (List ℕ) × Bool :=
  save_fingerprint_image_logic
    ⟨get_image uart, (download_image uart).1, (download_image uart).2⟩

/-! ### Helper lemmas -/

/-- The nested `for y / for x` loops produce the same list as a single map
over a flat index `i`, with `x = i % 256` and `y = i / 256`. -/
lemma range_flatMap_map (g : ℕ → ℕ → ℕ) :
    ∀ n : ℕ, ((List.range n).flatMap fun y => (List.range 256).map fun x => g x y)
      = (List.range (n * 256)).map fun i => g (i % 256) (i / 256) := by
  intro n
  induction n with
  | zero => simp
  | succ n ih =>
    rw [List.range_succ, List.flatMap_append, ih, Nat.succ_mul, List.range_add,
      List.map_append, List.map_map]
    congr 1
    simp only [List.flatMap_cons, List.flatMap_nil, List.append_nil]
    apply List.map_congr_left
    intro j hj
    have hj' : j < 256 := List.mem_range.mp hj
    have h1 : (n * 256 + j) % 256 = j := by omega
    have h2 : (n * 256 + j) / 256 = n := by omega
    simp [Function.comp, h1, h2]

/-- The gradient buffer as a flat map over pixel indices. -/
lemma download_image_buffer_eq_map :
    download_image_buffer = (List.range 73728).map fun i => (i % 256 + i / 256) % 256 := by
  rw [download_image_buffer, range_flatMap_map (fun x y => (x + y) % 256) 288]

lemma download_image_buffer_length : download_image_buffer.length = 73728 := by
  rw [download_image_buffer_eq_map]
  simp

lemma download_image_buffer_getElem (y x : ℕ) (hy : y < 288) (hx : x < 256) :
    download_image_buffer[y * 256 + x]? = some ((x + y) % 256) := by
  rw [download_image_buffer_eq_map, List.getElem?_map,
    List.getElem?_range (by omega : y * 256 + x < 73728)]
  simp only [Option.map_some', Option.some.injEq]
  omega

lemma getD_take_of_lt (s : List ℕ) (n i d : ℕ) (h : i < n) :
    (s.take n).getD i d = s.getD i d := by
  simp [List.getD_eq_getElem?_getD, List.getElem?_take_of_lt h]

/-- Unfolding `read_packet` on a stream that starts with at least nine bytes. -/
lemma read_packet_cons (e0 e1 e2 e3 e4 e5 e6 e7 e8 : ℕ) (rest : List ℕ) :
    read_packet (e0 :: e1 :: e2 :: e3 :: e4 :: e5 :: e6 :: e7 :: e8 :: rest) =
      if e0 ≠ 0xEF ∨ e1 ≠ 0x01 then none
      else if (rest.take (e7 * 256 + e8)).length < e7 * 256 + e8 then none
      else some (e6, (rest.take (e7 * 256 + e8)).take
          ((rest.take (e7 * 256 + e8)).length - 2)) :=
  rfl

/-- `_read_packet` on any well-framed stream: correct magic, length field
consistent with the payload, and two trailing bytes `c1 c2` of arbitrary
value (the checksum is never recomputed or compared) yields the packet type
and the payload. -/
lemma read_packet_framed (a0 a1 a2 a3 t c1 c2 : ℕ) (p : List ℕ) :
    read_packet (0xEF :: 0x01 :: a0 :: a1 :: a2 :: a3 :: t ::
        ((p.length + 2) / 256) :: ((p.length + 2) % 256) :: (p ++ [c1, c2]))
      = some (t, p) := by
  rw [read_packet_cons]
  have hlen : (p.length + 2) / 256 * 256 + (p.length + 2) % 256 = p.length + 2 := by
    omega
  rw [hlen]
  have htake : (p ++ [c1, c2]).take (p.length + 2) = p ++ [c1, c2] :=
    List.take_of_length_le (by simp)
  rw [htake]
  have hl : (p ++ [c1, c2]).length = p.length + 2 := by simp
  rw [hl]
  rw [if_neg (by decide), if_neg (lt_irrefl _)]
  have h2 : p.length + 2 - 2 = p.length := by omega
  rw [h2, List.take_left' rfl]

/-- The polling loop has no path that returns `False`. -/
lemma wff_ne_false : ∀ (fuel i : ℕ) (polls : ℕ → ℕ),
    wait_for_finger fuel i polls ≠ some false := by
  intro fuel
  induction fuel with
  | zero => intro i polls h; simp [wait_for_finger] at h
  | succ n ih =>
    intro i polls h
    simp only [wait_for_finger] at h
    by_cases hi : polls i = OK
    · rw [if_pos hi] at h
      simp at h
    · rw [if_neg hi] at h
      exact ih (i + 1) polls h

/-- If no poll ever reports OK, the loop never terminates (it is still
running after any number of observed iterations). -/
lemma wff_none (polls : ℕ → ℕ) (hp : ∀ k, polls k ≠ OK) :
    ∀ fuel i, wait_for_finger fuel i polls = none := by
  intro fuel
  induction fuel with
  | zero => intro i; rfl
  | succ n ih =>
    intro i
    simp only [wait_for_finger]
    rw [if_neg (hp i)]
    exact ih (i + 1)

/-- The loop returns `true` at the first poll reporting OK. -/
lemma wff_true (polls : ℕ → ℕ) :
    ∀ (fuel i k : ℕ), i ≤ k → k < i + fuel → polls k = OK →
      (∀ j, i ≤ j → j < k → polls j ≠ OK) →
      wait_for_finger fuel i polls = some true := by
  intro fuel
  induction fuel with
  | zero =>
    intro i k h1 h2 _ _
    exact absurd h2 (by omega)
  | succ n ih =>
    intro i k h1 h2 h3 h4
    simp only [wait_for_finger]
    by_cases hi : polls i = OK
    · rw [if_pos hi]
    · rw [if_neg hi]
      have hik : i < k := by
        rcases Nat.eq_or_lt_of_le h1 with he | hl
        · exact absurd (by rw [he]; exact h3) hi
        · exact hl
      exact ih (i + 1) k (by omega) (by omega) h3 (fun j hj1 hj2 => h4 j (by omega) hj2)

/-! ### Claims -/

/-- C1: for every address (4 bytes), packet_type (1 byte) and payload,
`_send_packet` emits exactly `0xEF 0x01`, the address, the packet type, the
big-endian 16-bit length `len(payload) + 2`, the payload, and a big-endian
16-bit checksum equal to the sum of the packet type, the two length bytes
and the payload bytes, truncated to 16 bits exactly as by `& 0xFFFF`. -/
theorem send_packet_bytes (a : List ℕ) (t : ℕ) (p : List ℕ)
    (hlen : a.length = 4) (ha : ∀ b ∈ a, b < 256) (ht : t < 256)
    (hp : ∀ b ∈ p, b < 256) (hn : p.length + 2 < 65536) :
    send_packet a t p =
      [0xEF, 0x01] ++ a ++ [t] ++ [(p.length + 2) / 256, (p.length + 2) % 256] ++ p ++
      [(t + (p.length + 2) / 256 + (p.length + 2) % 256 + p.sum) % 65536 / 256,
       (t + (p.length + 2) / 256 + (p.length + 2) % 256 + p.sum) % 65536 % 256] := by
  match a, hlen with
  | [a0, a1, a2, a3], _ =>
    show (0xEF :: 0x01 :: a0 :: a1 :: a2 :: a3 :: t :: ((p.length + 2) / 256) ::
          ((p.length + 2) % 256) ::
          (p ++ [(t + ((p.length + 2) / 256 + ((p.length + 2) % 256 + p.sum))) / 256 % 256,
                 (t + ((p.length + 2) / 256 + ((p.length + 2) % 256 + p.sum))) % 256]))
        = _
    simp only [List.cons_append, List.nil_append, List.cons.injEq, true_and,
      List.append_cancel_left_eq, and_true]
    constructor <;> omega

/-- C1 witness: the verify-password golden vector
`EF 01 FF FF FF FF 01 00 07 13 00 00 00 00 00 1B`. -/
theorem send_packet_bytes_witness :
    ((([0xFF, 0xFF, 0xFF, 0xFF] : List ℕ).length = 4) ∧
      (∀ b ∈ ([0xFF, 0xFF, 0xFF, 0xFF] : List ℕ), b < 256) ∧ (0x01 : ℕ) < 256 ∧
      (∀ b ∈ ([0x13, 0, 0, 0, 0] : List ℕ), b < 256) ∧
      ([0x13, 0, 0, 0, 0] : List ℕ).length + 2 < 65536) ∧
    send_packet [0xFF, 0xFF, 0xFF, 0xFF] 0x01 [0x13, 0, 0, 0, 0] =
      [0xEF, 0x01, 0xFF, 0xFF, 0xFF, 0xFF, 0x01, 0x00, 0x07,
       0x13, 0x00, 0x00, 0x00, 0x00, 0x00, 0x1B] := by
  refine ⟨⟨by decide, by decide, by decide, by decide, by decide⟩, ?_⟩
  have h := send_packet_bytes [0xFF, 0xFF, 0xFF, 0xFF] 0x01 [0x13, 0, 0, 0, 0]
    (by decide) (by decide) (by decide) (by decide) (by decide)
  exact h.trans (by decide)

/-- C2: for every valid address, packet type and payload, decoding the bytes
produced by encoding succeeds and returns exactly the packet type and the
payload unchanged (the 9-byte header and the 2 trailing checksum bytes are
stripped). -/
theorem read_send_roundtrip (a : List ℕ) (t : ℕ) (p : List ℕ)
    (hlen : a.length = 4) (ht : t < 256) (hp : ∀ b ∈ p, b < 256)
    (hn : p.length + 2 < 65536) :
    read_packet (send_packet a t p) = some (t, p) := by
  match a, hlen with
  | [a0, a1, a2, a3], _ =>
    exact read_packet_framed a0 a1 a2 a3 t
      ((t + ((p.length + 2) / 256 + ((p.length + 2) % 256 + p.sum))) / 256 % 256)
      ((t + ((p.length + 2) / 256 + ((p.length + 2) % 256 + p.sum))) % 256) p

/-- C2 witness: round trip on the verify-password packet. -/
theorem read_send_roundtrip_witness :
    ((([0xFF, 0xFF, 0xFF, 0xFF] : List ℕ).length = 4) ∧ (0x01 : ℕ) < 256 ∧
      (∀ b ∈ ([0x13, 0, 0, 0, 0] : List ℕ), b < 256) ∧
      ([0x13, 0, 0, 0, 0] : List ℕ).length + 2 < 65536) ∧
    read_packet (send_packet [0xFF, 0xFF, 0xFF, 0xFF] 0x01 [0x13, 0, 0, 0, 0]) =
      some (0x01, [0x13, 0, 0, 0, 0]) :=
  ⟨⟨by decide, by decide, by decide, by decide⟩,
    read_send_roundtrip [0xFF, 0xFF, 0xFF, 0xFF] 0x01 [0x13, 0, 0, 0, 0]
      (by decide) (by decide) (by decide) (by decide)⟩

/-- C3 counterexample: the claim says the decoder rejects any packet whose
trailing checksum does not match, and that flipping a single payload bit
makes decoding fail.  Flipping bit 0 of the first payload byte of the
verify-password packet (`0x13 → 0x12`) while keeping the original checksum
`0x001B` — which no longer equals the 16-bit sum `0x001A` — still decodes
successfully and returns the mutated payload. -/
theorem checksum_not_verified_cex :
    read_packet [0xEF, 0x01, 0xFF, 0xFF, 0xFF, 0xFF, 0x01, 0x00, 0x07,
        0x12, 0x00, 0x00, 0x00, 0x00, 0x00, 0x1B] = some (0x01, [0x12, 0, 0, 0, 0]) ∧
    0x00 * 256 + 0x1B ≠ (0x01 + 0x00 + 0x07 + (0x12 + 0 + 0 + 0 + 0)) % 65536 := by
  decide

/-- C3 amended: `_read_packet` performs no checksum verification at all — on
any stream with correct magic and a length field consistent with the
payload it returns the packet type and payload for arbitrary trailing
bytes `c1 c2`, whether or not they equal the 16-bit checksum. -/
theorem read_packet_ignores_checksum (a0 a1 a2 a3 t c1 c2 : ℕ) (p : List ℕ) :
    read_packet (0xEF :: 0x01 :: a0 :: a1 :: a2 :: a3 :: t ::
        ((p.length + 2) / 256) :: ((p.length + 2) % 256) :: (p ++ [c1, c2]))
      = some (t, p) :=
  read_packet_framed a0 a1 a2 a3 t c1 c2 p

/-- C4: `_read_packet` yields no packet whenever fewer than 9 header bytes
are available, or the first two header bytes are not `0xEF 0x01`, or fewer
body bytes than the declared big-endian length from header bytes 7-8 are
available. -/
theorem read_packet_rejects (s : List ℕ)
    (h : s.length < 9 ∨ s.getD 0 0 ≠ 0xEF ∨ s.getD 1 0 ≠ 0x01 ∨
         s.length < 9 + (s.getD 7 0 * 256 + s.getD 8 0)) :
    read_packet s = none := by
  simp only [read_packet]
  by_cases h9 : (s.take 9).length < 9
  · rw [if_pos h9]
  · have hs9 : 9 ≤ s.length := by
      simp only [List.length_take] at h9; omega
    rw [if_neg h9]
    have g0 := getD_take_of_lt s 9 0 0 (by omega)
    have g1 := getD_take_of_lt s 9 1 0 (by omega)
    have g7 := getD_take_of_lt s 9 7 0 (by omega)
    have g8 := getD_take_of_lt s 9 8 0 (by omega)
    by_cases hm : (s.take 9).getD 0 0 ≠ 0xEF ∨ (s.take 9).getD 1 0 ≠ 0x01
    · rw [if_pos hm]
    · rw [if_neg hm]
      push_neg at hm
      have hL : s.length < 9 + (s.getD 7 0 * 256 + s.getD 8 0) := by
        rcases h with h | h | h | h
        · omega
        · exact absurd (g0.symm.trans hm.1) h
        · exact absurd (g1.symm.trans hm.2) h
        · exact h
      have hdl : ((s.drop 9).take ((s.take 9).getD 7 0 * 256 + (s.take 9).getD 8 0)).length
          < (s.take 9).getD 7 0 * 256 + (s.take 9).getD 8 0 := by
        simp only [List.length_take, List.length_drop]
        omega
      rw [if_pos hdl]

/-- C4 witness: a one-byte stream is rejected. -/
theorem read_packet_rejects_witness :
    (([0xEF] : List ℕ).length < 9 ∨ ([0xEF] : List ℕ).getD 0 0 ≠ 0xEF ∨
      ([0xEF] : List ℕ).getD 1 0 ≠ 0x01 ∨
      ([0xEF] : List ℕ).length < 9 + (([0xEF] : List ℕ).getD 7 0 * 256 +
        ([0xEF] : List ℕ).getD 8 0)) ∧
    read_packet [0xEF] = none :=
  ⟨by decide, read_packet_rejects [0xEF] (by decide)⟩

/-- C5: every buffer produced by a successful capture
(`save_fingerprint_image` returning saved pixels) has length exactly
`width * height = 256 * 288 = 73728`; no other length can be produced. -/
theorem capture_buffer_length (uart : List ℕ) (buf : List ℕ)
    (h : (save_fingerprint_image uart).1 = some buf) :
    buf.length = 256 * 288 ∧ buf.length = 73728 := by
  have hne : download_image_buffer ≠ [] := by
    intro he
    have hl := download_image_buffer_length
    rw [he] at hl
    simp at hl
  by_cases hg : get_image uart = OK
  · have hs : (save_fingerprint_image uart).1 = some download_image_buffer := by
      simp [save_fingerprint_image, save_fingerprint_image_logic, download_image, hg, hne]
    have hb : download_image_buffer = buf := Option.some.inj (hs.symm.trans h)
    rw [← hb, download_image_buffer_length]
    norm_num
  · have hs : (save_fingerprint_image uart).1 = none := by
      simp [save_fingerprint_image, save_fingerprint_image_logic, download_image, hg]
    rw [hs] at h
    exact absurd h (by simp)

/-- C5 witness: a capture driven by an OK acknowledge packet succeeds and
its buffer has length 73728. -/
theorem capture_buffer_length_witness :
    (save_fingerprint_image
        [0xEF, 0x01, 0xFF, 0xFF, 0xFF, 0xFF, 0x07, 0x00, 0x03, 0x00, 0x00, 0x0A]).1
      = some download_image_buffer ∧
    download_image_buffer.length = 256 * 288 := by
  have hne : download_image_buffer ≠ [] := by
    intro he
    have hl := download_image_buffer_length
    rw [he] at hl
    simp at hl
  have hg : get_image [0xEF, 0x01, 0xFF, 0xFF, 0xFF, 0xFF, 0x07, 0x00, 0x03,
      0x00, 0x00, 0x0A] = OK := by decide
  have hs : (save_fingerprint_image
      [0xEF, 0x01, 0xFF, 0xFF, 0xFF, 0xFF, 0x07, 0x00, 0x03, 0x00, 0x00, 0x0A]).1
      = some download_image_buffer := by
    simp [save_fingerprint_image, save_fingerprint_image_logic, download_image, hg, hne]
  exact ⟨hs, (capture_buffer_length _ download_image_buffer hs).1⟩

/-- C6 counterexample: the claim says `wait_for_finger` returns `false` once
the configured timeout elapses.  The loop takes no timeout at all: with a
sensor that always reports `NOFINGER`, after 1000 polls the loop is still
running (`none`), and no number of iterations can make it return `false`. -/
theorem wait_for_finger_no_timeout_cex :
    wait_for_finger 1000 0 (fun _ => NOFINGER) = none ∧
    wait_for_finger 1000 0 (fun _ => NOFINGER) ≠ some false := by
  constructor
  · exact wff_none (fun _ => NOFINGER) (fun _ => by show NOFINGER ≠ OK; decide) 1000 0
  · exact wff_ne_false 1000 0 (fun _ => NOFINGER)

/-- C6 amended: `wait_for_finger` returns `true` as soon as a poll reports
status OK; it has no timeout and never returns `false` — if no poll ever
reports OK it keeps looping (still `none` after any number of observed
iterations). -/
theorem wait_for_finger_behaviour (fuel : ℕ) (polls : ℕ → ℕ) :
    wait_for_finger fuel 0 polls ≠ some false ∧
    ((∀ k, polls k ≠ OK) → wait_for_finger fuel 0 polls = none) ∧
    (∀ k, k < fuel → polls k = OK → (∀ j, j < k → polls j ≠ OK) →
      wait_for_finger fuel 0 polls = some true) :=
  ⟨wff_ne_false fuel 0 polls,
    fun hp => wff_none polls hp fuel 0,
    fun k hk h3 h4 =>
      wff_true polls fuel 0 k (Nat.zero_le k) (by omega) h3 (fun j _ hj => h4 j hj)⟩

/-- C6 witness: with OK first reported on the third poll, the loop returns
`true`. -/
theorem wait_for_finger_behaviour_witness :
    ((2 : ℕ) < 5 ∧ (fun k : ℕ => if k = 2 then 0 else 2) 2 = OK) ∧
    wait_for_finger 5 0 (fun k : ℕ => if k = 2 then 0 else 2) = some true :=
  ⟨⟨by decide, by decide⟩,
    (wait_for_finger_behaviour 5 (fun k : ℕ => if k = 2 then 0 else 2)).2.2 2
      (by decide) (by decide)
      (fun j hj => by interval_cases j <;> decide)⟩

/-- C7: `save_fingerprint_image` requires an explicit OK from `get_image`
and then an explicit OK from `download_image`; a non-OK `get_image` status
short-circuits before `download_image` is even called, a non-OK
`download_image` status fails afterwards, and in both cases no image is
saved. -/
theorem save_requires_ok_statuses (f : Finger) :
    ((save_fingerprint_image_logic f).1.isSome ↔
        f.get_image_result = OK ∧ f.download_image_result = OK) ∧
    (f.get_image_result ≠ OK → save_fingerprint_image_logic f = (none, false)) ∧
    (f.get_image_result = OK → f.download_image_result ≠ OK →
        save_fingerprint_image_logic f = (none, true)) := by
  unfold save_fingerprint_image_logic
  by_cases h1 : f.get_image_result = OK <;> by_cases h2 : f.download_image_result = OK <;>
    simp [h1, h2]

/-- C7 witness: a sensor whose get-image phase reports `IMAGEFAIL` saves
nothing and never reaches the download phase. -/
theorem save_requires_ok_statuses_witness :
    ((3 : ℕ) ≠ OK) ∧ save_fingerprint_image_logic ⟨3, 0, []⟩ = (none, false) :=
  ⟨by decide, (save_requires_ok_statuses ⟨3, 0, []⟩).2.1 (by decide)⟩

/-- C8 counterexample: the claim says protocol errors while reading a reply
are surfaced as distinguishable errors and that `get_image` never maps a
malformed or absent reply to an ordinary sensor status code.  On an empty
stream `_read_packet` fails, yet `get_image` returns `0x03` — the ordinary
`IMAGEFAIL` sensor status — indistinguishable from a genuine
image-capture-failed reply. -/
theorem get_image_masks_protocol_error_cex :
    read_packet ([] : List ℕ) = none ∧ get_image [] = 0x03 ∧ IMAGEFAIL = 0x03 := by
  decide

/-- C8 amended: every failed or malformed reply read is collapsed by
`get_image` into the ordinary sensor status code `IMAGEFAIL` (0x03) — a
failed `_read_packet` (short header, bad magic, short body), a reply whose
packet type is not `0x07`, and a reply with empty data alike; no
distinguishable protocol error reaches the caller (and no retry occurs —
the value is returned immediately). -/
theorem get_image_imagefail_on_bad_reply (uart : List ℕ)
    (h : read_packet uart = none ∨
      ∃ pt data, read_packet uart = some (pt, data) ∧ (pt ≠ 0x07 ∨ data = [])) :
    get_image uart = IMAGEFAIL := by
  rcases h with h | ⟨pt, data, hrp, hd⟩
  · simp [get_image, h]
  · simp only [get_image, hrp]
    rw [if_neg]
    rcases hd with hd | hd
    · exact fun hc => hd hc.1
    · exact fun hc => hc.2 hd

/-- C8 witness: a well-formed reply of the wrong packet type (0x02 instead
of 0x07) also yields `IMAGEFAIL`. -/
theorem get_image_imagefail_on_bad_reply_witness :
    (∃ pt data,
        read_packet [0xEF, 0x01, 0xFF, 0xFF, 0xFF, 0xFF, 0x02, 0x00, 0x03, 0x00, 0x00, 0x05]
          = some (pt, data) ∧ (pt ≠ 0x07 ∨ data = [])) ∧
    get_image [0xEF, 0x01, 0xFF, 0xFF, 0xFF, 0xFF, 0x02, 0x00, 0x03, 0x00, 0x00, 0x05]
      = IMAGEFAIL :=
  ⟨⟨0x02, [0x00], by decide, Or.inl (by decide)⟩,
    get_image_imagefail_on_bad_reply
      [0xEF, 0x01, 0xFF, 0xFF, 0xFF, 0xFF, 0x02, 0x00, 0x03, 0x00, 0x00, 0x05]
      (Or.inr ⟨0x02, [0x00], by decide, Or.inl (by decide)⟩)⟩

/-- C9: `download_image` exchanges no packets — its result does not depend
on the sensor state at all — and always returns status OK with the fixed
gradient buffer of 73728 bytes whose pixel at row `y`, column `x` is
`(x + y) % 256`. -/
theorem download_image_constant_gradient (u v : List ℕ) :
    download_image u = download_image v ∧
    (download_image u).1 = OK ∧
    (download_image u).2.length = 256 * 288 ∧
    ∀ y x, y < 288 → x < 256 →
      (download_image u).2[y * 256 + x]? = some ((x + y) % 256) := by
  refine ⟨rfl, rfl, ?_, ?_⟩
  · show download_image_buffer.length = 256 * 288
    rw [download_image_buffer_length]
  · intro y x hy hx
    exact download_image_buffer_getElem y x hy hx

/-- C9 witness: pixel (0, 0) of the gradient is 0. -/
theorem download_image_constant_gradient_witness :
    ((0 : ℕ) < 288 ∧ (0 : ℕ) < 256) ∧ (download_image []).2[0]? = some 0 := by
  refine ⟨⟨by decide, by decide⟩, ?_⟩
  have h := (download_image_constant_gradient [] []).2.2.2 0 0 (by decide) (by decide)
  simpa using h

/-- C10: `read_sysparam` is total and never signals failure — for every
stream it either returns the genuinely parsed parameters (type-0x07 reply,
non-empty data with OK status, at least 17 data bytes) or silently
substitutes the fixed defaults `storage_capacity = 200`,
`security_level = 3`, `device_address = 0xFFFFFFFF`, `packet_length = 128`,
`baud_rate = 57600`; the result type carries no failure marker. -/
theorem read_sysparam_total_defaults (s : List ℕ) :
    (defaultParam.storage_capacity = 200 ∧ defaultParam.security_level = 3 ∧
      defaultParam.device_address = 0xFFFFFFFF ∧ defaultParam.packet_length = 128 ∧
      defaultParam.baud_rate = 57600) ∧
    (read_sysparam s = defaultParam ∨
      ∃ pt data, read_packet s = some (pt, data) ∧ pt = 0x07 ∧ data.headD 0 = OK ∧
        17 ≤ data.length ∧ read_sysparam s = parseSysParam data) := by
  refine ⟨by decide, ?_⟩
  rcases hrp : read_packet s with _ | ⟨pt, data⟩
  · left
    simp [read_sysparam, hrp]
  · by_cases hc : pt = 0x07 ∧ data ≠ [] ∧ data.headD 0 = OK
    · by_cases h17 : 17 ≤ data.length
      · right
        refine ⟨pt, data, rfl, hc.1, hc.2.2, h17, ?_⟩
        simp only [read_sysparam, hrp]
        rw [if_pos hc]
      · left
        have hd : parseSysParam data = defaultParam := by
          rw [parseSysParam, if_neg h17]
        simp only [read_sysparam, hrp]
        rw [if_pos hc, hd]
    · left
      simp only [read_sysparam, hrp]
      rw [if_neg hc]

end Attendance

